import Mathlib

/-!
Verification of the esri-converter conversion engine against its
specification. The repository itself ships only driver scripts
(`examples/convert_sf_premium_nc.py`, `examples/simple_example.py`,
`scripts/docs.py`, `scripts/publish.py`); the conversion engine they call
(`esri_converter.api`) is not part of the visible tree, so the engine is
modelled from the specification, while the driver scripts are embedded
directly from their source.
-/

namespace EsriConverter

/-! ## Data model (spec §3) -/

/-- Semantic attribute field types of a layer (spec §3). -/
inductive FieldType
  | integer | float | text | date | boolean | binary
deriving DecidableEq

/-- Geometry types a layer may declare (spec §3). -/
inductive GeometryType
  | point | lineString | polygon | multiPoint | multiLineString | multiPolygon | none
deriving DecidableEq

/-- One attribute field of a layer: name and semantic type (spec §3). -/
structure FieldDef where
  name : String
  ftype : FieldType
deriving DecidableEq

/-- Bounding extent of a layer, min/max per axis (spec §3). Coordinate
values are abstracted to integers; no claim inspects them. -/
structure Extent where
  minX : Int
  minY : Int
  maxX : Int
  maxY : Int
deriving DecidableEq

/-- Immutable per-layer snapshot produced by the Source Inspector (spec §3):
name, geometry type, field list, CRS identifier, optional bounding extent,
and record count at inspection time. -/
structure LayerDescriptor where
  name : String
  geometryType : GeometryType
  fields : List FieldDef
  crs : String
  extent : Option Extent
  recordCount : Nat
deriving DecidableEq

/-- An attribute value tagged with its semantic type (spec §3). Floating
point values are abstracted as mantissa/exponent pairs, since the engine
passes attribute values through unchanged. -/
inductive AttrValue
  | intVal (i : Int)
  | floatVal (mantissa : Int) (exponent : Int)
  | textVal (s : String)
  | dateVal (y m d : Nat)
  | boolVal (b : Bool)
  | binVal (bytes : List Nat)
  | nullVal
deriving DecidableEq

/-- One feature: a mapping from field name to attribute value plus an
optional encoded geometry payload, passed through unchanged (spec §3
and glossary). -/
structure Feature where
  attrs : List (String × AttrValue)
  geometry : Option String
deriving DecidableEq

/-- Modelled from the spec: one layer of an opened geodatabase as the
engine sees it — the Inspector's descriptor plus the feature stream the
Chunked Feature Reader would produce for it. `corrupt` marks a layer
whose read aborts with unrecoverable malformed data (spec §4.2). The
engine itself is not in the repository, so the layer store is modelled. -/
structure SourceLayer where
  desc : LayerDescriptor
  features : List Feature
  corrupt : Bool
deriving DecidableEq

/-- Modelled from the spec: a geodatabase source as `convert` sees it —
a path, whether that path exists, and the layers of the container in
container-native order (spec §3, §4.5). The container format itself is
opaque to every claim. -/
structure GeodatabaseSource where
  path : String
  pathExists : Bool
  layers : List SourceLayer
deriving DecidableEq

/-! ## Schema Mapper (spec §4.3) -/

/-- Target column types of the columnar output format. -/
inductive TargetType
  | int64 | float64 | utf8 | date32 | boolFlag | binaryBlob
deriving DecidableEq

/-- Fixed, total mapping from native semantic field types to target
column types (spec §4.3): every native type in the supported set has
exactly one target type. -/
def mapFieldType : FieldType → TargetType
  | .integer => .int64
  | .float => .float64
  | .text => .utf8
  | .date => .date32
  | .boolean => .boolFlag
  | .binary => .binaryBlob

/-- One attribute column of the target schema (spec §3). -/
structure ColumnDef where
  name : String
  ctype : TargetType
deriving DecidableEq

/-- The synthesized geometry column: declared geometry type and the
layer's CRS identifier as column-level metadata (spec §3, §4.3). -/
structure GeometryColumn where
  geometryType : GeometryType
  crs : String
deriving DecidableEq

/-- Target columnar schema of one layer: 1:1 attribute columns plus a
single geometry column (spec §3). -/
structure TargetSchema where
  columns : List ColumnDef
  geometryColumn : GeometryColumn
deriving DecidableEq

/-- Case folding used for the case-insensitive column-name comparison of
spec §4.3: lower-case every character. -/
def foldName (s : String) : String := String.mk (s.data.map Char.toLower)

/-- Decimal digit as a character, for rendering numeric disambiguators. -/
def natDigitChar (d : Nat) : Char := Char.ofNat (48 + d)

/-- Decimal rendering of a numeric disambiguator (spec §4.3). -/
def natDecimal (n : Nat) : String :=
  String.mk (((Nat.digits 10 n).reverse).map natDigitChar)

/-- The candidate name obtained by suffixing numeric disambiguator `k`
to a colliding field name (spec §4.3). -/
def candidateName (base : String) (k : Nat) : String :=
  base ++ "_" ++ natDecimal k

/-- Try numeric disambiguators `k, k+1, …` in order until the suffixed
name avoids (case-insensitively) the names already taken; `fuel` bounds
the search (spec §4.3). -/
def freshAux (base : String) (seen : List String) : Nat → Nat → String
  | k, 0 => candidateName base k
  | k, fuel + 1 =>
    if foldName (candidateName base k) ∈ seen then freshAux base seen (k + 1) fuel
    else candidateName base k

/-- Resolve one field name against the case-folded names already chosen:
keep it when free, else suffix the first free numeric disambiguator in
encounter order (spec §4.3). -/
def freshName (base : String) (seen : List String) : String :=
  if foldName base ∈ seen then freshAux base seen 1 (seen.length + 1) else base

/-- Map a layer's fields to target columns in encounter order, resolving
case-insensitive name collisions deterministically (spec §4.3). -/
def resolveColumns : List FieldDef → List String → List ColumnDef
  | [], _ => []
  | f :: rest, seen =>
    let nm := freshName f.name seen
    { name := nm, ctype := mapFieldType f.ftype } :: resolveColumns rest (foldName nm :: seen)

/-- Modelled from the spec: `derive_schema(LayerDescriptor) → TargetSchema`
(spec §4.3); the Schema Mapper is not in the repository. Pure function:
1:1 field mapping through the total type table with deterministic
collision resolution, plus one geometry column carrying the declared
geometry type and CRS unchanged. -/
def derive_schema (d : LayerDescriptor) : TargetSchema :=
  { columns := resolveColumns d.fields []
  , geometryColumn := { geometryType := d.geometryType, crs := d.crs } }

/-! ## Chunked Feature Reader (spec §4.2) -/

/-- Modelled from the spec: the chunking of one layer's feature stream by
the Chunked Feature Reader (spec §4.2) — each chunk holds exactly `n`
features except the final chunk, which may be shorter; an empty layer
yields zero chunks. The reader is not in the repository. -/
def chunksOf (n : Nat) : List Feature → List (List Feature)
  | [] => []
  | x :: xs =>
    if _h : n = 0 then [x :: xs]
    else (x :: xs).take n :: chunksOf n ((x :: xs).drop n)
termination_by l => l.length
decreasing_by
  simp [List.length_drop]
  omega

/-! ## Layer Converter (spec §4.4) -/

/-- Final state of one layer's conversion (spec §3, §4.4). -/
inductive LayerState
  | completed | failed
deriving DecidableEq

/-- Per-layer outcome record (spec §3). Elapsed wall time is outside the
embedding and not modelled. -/
structure LayerResult where
  layer : String
  state : LayerState
  record_count : Nat
  output_file : Option String
  failureReason : Option String
deriving DecidableEq

/-- Failure reason recorded for a layer whose read aborted with
unrecoverable malformed data; carries the layer name (spec §4.2, §7). -/
def layerFailureReason (layerName : String) : String :=
  "layer " ++ layerName ++ ": unrecoverable malformed data"

/-- Deterministic output artifact path for a layer (spec §4.4, §6). -/
def artifactPath (outputDir layerName : String) : String :=
  outputDir ++ "/" ++ layerName ++ ".parquet"

/-- Observable side effects of a conversion run, in order: layer work
and output-directory writes (spec §4.4, §6). A written artifact records
its path, its schema, and the features it contains. -/
inductive Effect
  | layerOpened (layer : String)
  | chunkWritten (layer : String) (size : Nat)
  | artifactWritten (path : String) (schema : TargetSchema) (records : List Feature)
deriving DecidableEq

/-- Modelled from the spec: the Layer Converter (spec §4.4), which is not
in the repository — drives one layer end-to-end. A corrupt layer ends
`Failed` with a reason naming the layer and leaves no artifact; otherwise
every chunk is written in order and exactly one artifact exists for the
layer, schema-only when the layer is empty. -/
def convertLayer (outputDir : String) (chunkSize : Nat) (l : SourceLayer) :
    LayerResult × List Effect :=
  if l.corrupt then
    ({ layer := l.desc.name, state := .failed, record_count := 0
     , output_file := Option.none
     , failureReason := some (layerFailureReason l.desc.name) },
     [.layerOpened l.desc.name])
  else
    let chunks := chunksOf chunkSize l.features
    ({ layer := l.desc.name, state := .completed, record_count := l.features.length
     , output_file := some (artifactPath outputDir l.desc.name), failureReason := Option.none },
     .layerOpened l.desc.name
       :: (chunks.map (fun c => Effect.chunkWritten l.desc.name c.length)
           ++ [.artifactWritten (artifactPath outputDir l.desc.name)
                 (derive_schema l.desc) l.features]))

/-! ## Conversion Orchestrator (spec §4.5, §7) -/

/-- Error taxonomy (spec §7). -/
inductive ConvError
  | validationError (msg : String)
  | conversionError (layer : String) (msg : String)
  | baseError (msg : String)
deriving DecidableEq

/-- Job-level aggregate result (spec §3, §6). Wall time, throughput and
byte sizes are outside the embedding and not modelled as values. -/
structure ConversionResult where
  success : Bool
  layers_converted : List LayerResult
  layers_failed : List (String × String)
  total_records : Nat
  output_dir : String
deriving DecidableEq

/-- Whether a layer outcome is `Completed` (spec §3). -/
def isCompletedResult (r : LayerResult) : Bool :=
  match r.state with
  | .completed => true
  | .failed => false

/-- Whether a layer outcome is `Failed` (spec §3). -/
def isFailedResult (r : LayerResult) : Bool :=
  match r.state with
  | .completed => false
  | .failed => true

/-- Modelled from the spec: aggregation of all per-layer outcomes into a
ConversionResult and the concatenated effect trace (spec §4.5): overall
success is `count of completed layers > 0`, with the spec's explicit
carve-out that a source with zero layers succeeds trivially; total
records is the sum over completed layers. -/
def aggregate (layers : List SourceLayer) (output_dir : String) (n : Nat) :
    ConversionResult × List Effect :=
  let pairs := layers.map (convertLayer output_dir n)
  let results := pairs.map Prod.fst
  let completed := results.filter isCompletedResult
  let failed := results.filter isFailedResult
  ({ success := layers.isEmpty || decide (0 < completed.length)
   , layers_converted := completed
   , layers_failed := failed.map (fun r => (r.layer, r.failureReason.getD ""))
   , total_records := (completed.map (fun r => r.record_count)).sum
   , output_dir := output_dir }
  , pairs.flatMap Prod.snd)

/-- Modelled from the spec: the Conversion Orchestrator
`convert(source_path, output_dir, chunk_size) → ConversionResult`
(spec §4.5); the engine is not in the repository. Validates
`chunk_size ≥ 1` and source existence first — both fail with
`ValidationError` before any layer work — then converts the layers in
container-native order with per-layer failure isolation and aggregates
the job result. The second component is the run's observable effect
trace: an empty trace means no layer work and no output-directory
side effects happened. -/
def convert (src : GeodatabaseSource) (output_dir : String) (chunk_size : Int) :
    Except ConvError ConversionResult × List Effect :=
  if chunk_size ≤ 0 then
    (.error (.validationError "chunk_size must be a positive integer"), [])
  else if src.pathExists = false then
    (.error (.validationError "source path does not exist"), [])
  else
    let p := aggregate src.layers output_dir chunk_size.toNat
    (.ok p.1, p.2)

/-- Whether an API outcome is a `ValidationError` (spec §7). -/
def isValidationError : Except ConvError ConversionResult → Bool
  | .error (.validationError _) => true
  | _ => false

/-- The artifact paths written during a run, in write order (spec §6). -/
def artifactPaths (effs : List Effect) : List String :=
  effs.filterMap (fun e =>
    match e with
    | .artifactWritten p _ _ => some p
    | _ => Option.none)

/-- Schema and contents of every artifact written during a run, in write
order, with the artifact's location stripped (spec §8, idempotence). -/
def artifactViews (effs : List Effect) : List (TargetSchema × List Feature) :=
  effs.filterMap (fun e =>
    match e with
    | .artifactWritten _ s recs => some (s, recs)
    | _ => Option.none)

/-- The components of a layer outcome that do not depend on the output
location: name, state, record count and failure reason. -/
def LayerView := String × LayerState × Nat × Option String

/-- The location-independent view of one layer outcome (spec §8,
idempotence). -/
def lrView (r : LayerResult) : LayerView :=
  (r.layer, r.state, r.record_count, r.failureReason)

/-- `Completed`, read off a location-independent layer view. -/
def viewIsCompleted (x : LayerView) : Bool :=
  match x.2.1 with
  | .completed => true
  | .failed => false

/-- `Failed`, read off a location-independent layer view. -/
def viewIsFailed (x : LayerView) : Bool :=
  match x.2.1 with
  | .completed => false
  | .failed => true

/-- The location-independent view of a whole API outcome (spec §8). -/
def resultView :
    Except ConvError ConversionResult →
      Except ConvError (Bool × List LayerView × List (String × String) × Nat)
  | .error e => .error e
  | .ok r => .ok (r.success, r.layers_converted.map lrView, r.layers_failed, r.total_records)

/-- Values of the result mapping returned by the convert API (spec §6).
Elapsed-time, rate and byte-size values are outside the embedding and
carried opaquely. -/
inductive MapVal
  | boolVal (b : Bool)
  | natVal (n : Nat)
  | strVal (s : String)
  | layerList (l : List LayerResult)
  | failedList (l : List (String × String))
  | timing
deriving DecidableEq

/-- Modelled from the spec: the mapping (dictionary) form of a
ConversionResult handed back by `convert_gdb_to_parquet` (spec §6); the
engine that assembles it is not in the repository, so the key names
follow the drivers' accesses in `examples/convert_sf_premium_nc.py` and
`examples/simple_example.py`: `result['success']`,
`result['layers_converted']`, `result['layers_failed']`,
`result['total_records']`, `result['total_time']`,
`result['processing_rate']`, `result['output_size_mb']`,
`result['output_dir']`. -/
def resultMapping (r : ConversionResult) : List (String × MapVal) :=
  [ ("success", .boolVal r.success)
  , ("layers_converted", .layerList r.layers_converted)
  , ("layers_failed", .failedList r.layers_failed)
  , ("total_records", .natVal r.total_records)
  , ("total_time", .timing)
  , ("processing_rate", .timing)
  , ("output_size_mb", .timing)
  , ("output_dir", .strVal r.output_dir) ]

/-! ## The `examples/simple_example.py` driver, embedded from source -/

/-- Python run-time events relevant to `examples/simple_example.py`:
console prints, inspecting a geodatabase (`get_gdb_info`), converting
one (`convert_gdb_to_parquet`). -/
inductive PyEvent
  | printed (s : String)
  | inspectedGdb
  | convertedGdb
deriving DecidableEq

/-- Python run-time errors relevant here. -/
inductive PyError
  | typeErrorMissingArg (fn : String)
deriving DecidableEq

/-- `simple_conversion(gdb_file, output_dir=None, chunk_size=15000)` —
`examples/simple_example.py` line 19: one required positional parameter. -/
def simple_conversion_required : Nat := 1

/-- `get_info_example(gdb_file)` — `examples/simple_example.py` line 44:
one required positional parameter. -/
def get_info_example_required : Nat := 1

/-- Python call semantics: calling a function with fewer positional
arguments than its required positional parameters raises `TypeError` at
the call site, before the function body runs. -/
def pyCall (fn : String) (required provided : Nat) : Except PyError Unit :=
  if provided < required then .error (.typeErrorMissingArg fn) else .ok ()

/-- The `__main__` block of `examples/simple_example.py` (lines 62–74):
prints the banner, calls `get_info_example()` with no arguments, then
`simple_conversion()` with no arguments. The block has no try/except, so
an uncaught error aborts the remaining statements. Returns the script
outcome and the events that happened before it stopped; the bodies of
the two functions (lines 19–59) would inspect and convert the
geodatabase if they were ever entered. -/
def simpleExampleMain : Except PyError Unit × List PyEvent :=
  let banner := [PyEvent.printed "ESRI Converter - Simple Examples"
               , PyEvent.printed "1. Getting GDB Information:"]
  match pyCall "get_info_example" get_info_example_required 0 with
  | .error e => (.error e, banner)
  | .ok _ =>
    let afterInfo := banner ++ [PyEvent.inspectedGdb, PyEvent.printed "2. Converting GDB:"]
    match pyCall "simple_conversion" simple_conversion_required 0 with
    | .error e => (.error e, afterInfo)
    | .ok _ => (.ok (), afterInfo ++ [PyEvent.convertedGdb, PyEvent.printed "Done!"])

/-! ## Concrete fixtures used by witnesses and counterexamples -/

/-- A concrete feature used by the fixtures. -/
def sampleFeature : Feature :=
  { attrs := [("id", .intVal 1), ("name", .textVal "a")], geometry := some "POINT (1 2)" }

/-- A concrete layer descriptor used by the fixtures. -/
def parcelsDesc : LayerDescriptor :=
  { name := "parcels", geometryType := .polygon
  , fields := [{ name := "id", ftype := .integer }, { name := "name", ftype := .text }]
  , crs := "EPSG:4326", extent := Option.none, recordCount := 2 }

/-- A concrete convertible layer. -/
def layerA : SourceLayer :=
  { desc := parcelsDesc, features := [sampleFeature, sampleFeature], corrupt := false }

/-- A concrete corrupt layer. -/
def layerB : SourceLayer :=
  { desc := { parcelsDesc with name := "roads", geometryType := .lineString, recordCount := 0 }
  , features := [], corrupt := true }

/-- A second concrete convertible layer. -/
def layerC : SourceLayer :=
  { desc := { parcelsDesc with name := "streams", geometryType := .lineString, recordCount := 1 }
  , features := [sampleFeature], corrupt := false }

/-- A concrete convertible layer with 1,000 features. -/
def bigLayer : SourceLayer :=
  { desc := { parcelsDesc with name := "big", recordCount := 1000 }
  , features := List.replicate 1000 sampleFeature, corrupt := false }

/-- A concrete convertible layer with no features. -/
def schemaOnlyLayer : SourceLayer :=
  { desc := { parcelsDesc with name := "empty", recordCount := 0 }
  , features := [], corrupt := false }

/-- A concrete existing source with zero layers. -/
def emptyLayerSource : GeodatabaseSource :=
  { path := "empty.gdb", pathExists := true, layers := [] }

/-- A concrete source whose path does not exist. -/
def ghostSource : GeodatabaseSource :=
  { path := "missing.gdb", pathExists := false, layers := [] }

/-- A concrete source with one convertible and one corrupt layer. -/
def mixedSource : GeodatabaseSource :=
  { path := "mixed.gdb", pathExists := true, layers := [layerA, layerB] }

/-- A concrete source with a single convertible layer. -/
def demoSource : GeodatabaseSource :=
  { path := "demo.gdb", pathExists := true, layers := [layerA] }

/-- The result of converting `demoSource` with chunk size 500. -/
def demoResult : ConversionResult :=
  { success := true
  , layers_converted :=
      [{ layer := "parcels", state := .completed, record_count := 2
       , output_file := some (artifactPath "out" "parcels"), failureReason := Option.none }]
  , layers_failed := []
  , total_records := 2
  , output_dir := "out" }

/-- A concrete layer descriptor whose field list has a case-insensitive
duplicate name. -/
def dupFieldsDesc : LayerDescriptor :=
  { name := "dup", geometryType := .point
  , fields := [{ name := "Name", ftype := .text }, { name := "name", ftype := .integer }]
  , crs := "EPSG:4326", extent := Option.none, recordCount := 0 }

/-- The outcome of converting `mixedSource` with chunk size 500. -/
def mixedRun : ConversionResult × List Effect :=
  aggregate mixedSource.layers "out" 500

/-! ## Helper lemmas about the Layer Converter -/

theorem convertLayer_fst_corrupt (d : String) (n : Nat) (l : SourceLayer)
    (h : l.corrupt = true) :
    (convertLayer d n l).1 =
      { layer := l.desc.name, state := .failed, record_count := 0
      , output_file := Option.none
      , failureReason := some (layerFailureReason l.desc.name) } := by
  simp [convertLayer, h]

theorem convertLayer_snd_corrupt (d : String) (n : Nat) (l : SourceLayer)
    (h : l.corrupt = true) :
    (convertLayer d n l).2 = [.layerOpened l.desc.name] := by
  simp [convertLayer, h]

theorem convertLayer_fst_ok (d : String) (n : Nat) (l : SourceLayer)
    (h : l.corrupt = false) :
    (convertLayer d n l).1 =
      { layer := l.desc.name, state := .completed, record_count := l.features.length
      , output_file := some (artifactPath d l.desc.name), failureReason := Option.none } := by
  simp [convertLayer, h]

theorem convertLayer_snd_ok (d : String) (n : Nat) (l : SourceLayer)
    (h : l.corrupt = false) :
    (convertLayer d n l).2 =
      .layerOpened l.desc.name
        :: ((chunksOf n l.features).map (fun c => Effect.chunkWritten l.desc.name c.length)
            ++ [.artifactWritten (artifactPath d l.desc.name) (derive_schema l.desc)
                  l.features]) := by
  simp [convertLayer, h]

theorem artifactPaths_cons_opened (s : String) (es : List Effect) :
    artifactPaths (.layerOpened s :: es) = artifactPaths es := by
  simp [artifactPaths, List.filterMap_cons]

theorem artifactPaths_append (xs ys : List Effect) :
    artifactPaths (xs ++ ys) = artifactPaths xs ++ artifactPaths ys := by
  simp [artifactPaths, List.filterMap_append]

theorem artifactPaths_chunkEvents (name : String) (cs : List (List Feature)) :
    artifactPaths (cs.map (fun c => Effect.chunkWritten name c.length)) = [] := by
  induction cs with
  | nil => rfl
  | cons c cs ih =>
    simp only [List.map_cons, artifactPaths, List.filterMap_cons] at ih ⊢
    exact ih

theorem artifactPaths_convertLayer_ok (d : String) (n : Nat) (l : SourceLayer)
    (h : l.corrupt = false) :
    artifactPaths (convertLayer d n l).2 = [artifactPath d l.desc.name] := by
  rw [convertLayer_snd_ok d n l h, artifactPaths_cons_opened, artifactPaths_append,
    artifactPaths_chunkEvents]
  rfl

theorem artifactPaths_convertLayer_corrupt (d : String) (n : Nat) (l : SourceLayer)
    (h : l.corrupt = true) :
    artifactPaths (convertLayer d n l).2 = [] := by
  rw [convertLayer_snd_corrupt d n l h]
  rfl

/-! ## Claim theorems -/

/-- C2: for every valid source containing zero layers, `convert` returns a
ConversionResult with `success = true` and total records `0` — the job
succeeds trivially, with no layer work performed. -/
theorem convert_zero_layers_trivial_success (src : GeodatabaseSource)
    (output_dir : String) (chunk_size : Int)
    (hex : src.pathExists = true) (hcs : 0 < chunk_size) (hl : src.layers = []) :
    convert src output_dir chunk_size =
      (.ok { success := true, layers_converted := [], layers_failed := []
           , total_records := 0, output_dir := output_dir }, []) := by
  have h1 : ¬ chunk_size ≤ 0 := by omega
  simp [convert, h1, hex, hl, aggregate]

/-- C2 witness: the theorem applied to a concrete zero-layer source. -/
theorem convert_zero_layers_trivial_success_wit :
    convert emptyLayerSource "out" 500 =
      (.ok { success := true, layers_converted := [], layers_failed := []
           , total_records := 0, output_dir := "out" }, []) :=
  convert_zero_layers_trivial_success emptyLayerSource "out" 500 rfl (by decide) rfl

/-- C3: for every `chunk_size ≤ 0` the conversion fails with
`ValidationError`, for every source whatsoever (valid or not), with an
empty effect trace — no layer work has begun. -/
theorem convert_nonpositive_chunk_size_validation (src : GeodatabaseSource)
    (output_dir : String) (chunk_size : Int) (h : chunk_size ≤ 0) :
    convert src output_dir chunk_size =
      (.error (.validationError "chunk_size must be a positive integer"), []) := by
  simp [convert, h]

/-- C3 witness: the theorem applied at `chunk_size = 0` to a source that
is itself invalid (its path does not exist), showing the failure is
independent of source validity. -/
theorem convert_nonpositive_chunk_size_validation_wit :
    convert ghostSource "out" 0 =
      (.error (.validationError "chunk_size must be a positive integer"), []) :=
  convert_nonpositive_chunk_size_validation ghostSource "out" 0 (by decide)

/-- C4: for every source whose path does not exist, `convert` fails with
`ValidationError` (whatever the chunk size) and the effect trace is empty:
no layer is touched and there are no output-directory side effects. -/
theorem convert_missing_source_validation (src : GeodatabaseSource)
    (output_dir : String) (chunk_size : Int) (h : src.pathExists = false) :
    isValidationError (convert src output_dir chunk_size).1 = true ∧
    (convert src output_dir chunk_size).2 = [] := by
  by_cases hcs : chunk_size ≤ 0 <;> simp [convert, h, hcs, isValidationError]

/-- C4 witness: the theorem applied to a concrete missing source. -/
theorem convert_missing_source_validation_wit :
    isValidationError (convert ghostSource "out" 500).1 = true ∧
    (convert ghostSource "out" 500).2 = [] :=
  convert_missing_source_validation ghostSource "out" 500 rfl

/-- C1 counterexample: on a valid source with zero layers the job returns
`success = true` although the count of completed layers is zero — the
spec's "zero layers succeeds trivially" rule breaks the claimed
"success iff at least one layer completed" equivalence. -/
theorem convert_success_iff_completed_cex :
    (convert emptyLayerSource "out" 500).1 =
      .ok { success := true, layers_converted := [], layers_failed := []
          , total_records := 0, output_dir := "out" } ∧
    ¬ 0 < List.length ([] : List LayerResult) := by
  exact ⟨rfl, by decide⟩

/-- C1 (amended): for every conversion job that returns a result, the
job-level success flag is true iff at least one layer completed or the
source has zero layers (the trivially-succeeding case); in particular,
when some layers completed and some failed, success is true and
`layers_failed` is non-empty. -/
theorem convert_success_iff_completed (src : GeodatabaseSource)
    (output_dir : String) (chunk_size : Int)
    (r : ConversionResult) (effs : List Effect)
    (h : convert src output_dir chunk_size = (.ok r, effs)) :
    (r.success = true ↔ (0 < r.layers_converted.length ∨ src.layers = [])) ∧
    (r.layers_converted ≠ [] → r.layers_failed ≠ [] →
      r.success = true ∧ r.layers_failed ≠ []) := by
  rw [convert] at h
  by_cases h1 : chunk_size ≤ 0
  · simp [h1] at h
  · by_cases h2 : src.pathExists = false
    · simp [h1, h2] at h
    · simp only [h1, h2, if_false] at h
      have hr : r = (aggregate src.layers output_dir chunk_size.toNat).1 := by
        have := congrArg Prod.fst h
        simp at this
        exact this.symm
      subst hr
      constructor
      · simp [aggregate, List.isEmpty_iff]
        tauto
      · intro hne _hf
        have hpos : 0 < ((aggregate src.layers output_dir chunk_size.toNat).1.layers_converted).length :=
          List.length_pos.mpr hne
        refine ⟨?_, _hf⟩
        simp only [aggregate] at hpos ⊢
        simp only [Bool.or_eq_true, decide_eq_true_eq]
        right
        exact hpos

/-- C1 witness: the amended theorem applied to a concrete source with one
convertible and one corrupt layer. -/
theorem convert_success_iff_completed_wit :
    (mixedRun.1.success = true ↔
      (0 < mixedRun.1.layers_converted.length ∨ mixedSource.layers = [])) ∧
    (mixedRun.1.layers_converted ≠ [] → mixedRun.1.layers_failed ≠ [] →
      mixedRun.1.success = true ∧ mixedRun.1.layers_failed ≠ []) :=
  convert_success_iff_completed mixedSource "out" 500 mixedRun.1 mixedRun.2 rfl

/-- C5: for a source with three layers `[A (convertible), B (corrupt),
C (convertible)]` converted in one job, `layers_converted` holds exactly
A's and C's results (each equal to what converting that layer alone
yields — B's failure does not abort the job or affect them),
`layers_failed` holds exactly B with a reason that contains B's name,
`success = true`, and output artifacts are written for A and C only. -/
theorem convert_partial_failure_isolation
    (A B C : SourceLayer) (p output_dir : String) (chunk_size : Int)
    (hcs : 0 < chunk_size)
    (hA : A.corrupt = false) (hB : B.corrupt = true) (hC : C.corrupt = false) :
    (convert ⟨p, true, [A, B, C]⟩ output_dir chunk_size).1 =
      .ok { success := true
          , layers_converted :=
              [(convertLayer output_dir chunk_size.toNat A).1,
               (convertLayer output_dir chunk_size.toNat C).1]
          , layers_failed := [(B.desc.name, layerFailureReason B.desc.name)]
          , total_records := A.features.length + C.features.length
          , output_dir := output_dir } ∧
    (convertLayer output_dir chunk_size.toNat A).1.layer = A.desc.name ∧
    (convertLayer output_dir chunk_size.toNat A).1.state = .completed ∧
    (convertLayer output_dir chunk_size.toNat C).1.layer = C.desc.name ∧
    (convertLayer output_dir chunk_size.toNat C).1.state = .completed ∧
    layerFailureReason B.desc.name =
      "layer " ++ B.desc.name ++ ": unrecoverable malformed data" ∧
    artifactPaths (convert ⟨p, true, [A, B, C]⟩ output_dir chunk_size).2 =
      [artifactPath output_dir A.desc.name, artifactPath output_dir C.desc.name] := by
  have h1 : ¬ chunk_size ≤ 0 := by omega
  refine ⟨?_, ?_, ?_, ?_, ?_, rfl, ?_⟩
  · simp [convert, h1, aggregate, convertLayer_fst_ok, convertLayer_fst_corrupt,
      hA, hB, hC, isCompletedResult, isFailedResult]
  · simp [convertLayer_fst_ok, hA]
  · simp [convertLayer_fst_ok, hA]
  · simp [convertLayer_fst_ok, hC]
  · simp [convertLayer_fst_ok, hC]
  · simp [convert, h1, aggregate, artifactPaths_append,
      artifactPaths_convertLayer_ok, artifactPaths_convertLayer_corrupt, hA, hB, hC]

/-- C5 witness: the theorem applied to three concrete layers. -/
theorem convert_partial_failure_isolation_wit :
    (convert ⟨"abc.gdb", true, [layerA, layerB, layerC]⟩ "out" 500).1 =
      .ok { success := true
          , layers_converted :=
              [(convertLayer "out" (500 : Int).toNat layerA).1,
               (convertLayer "out" (500 : Int).toNat layerC).1]
          , layers_failed := [(layerB.desc.name, layerFailureReason layerB.desc.name)]
          , total_records := layerA.features.length + layerC.features.length
          , output_dir := "out" } ∧
    (convertLayer "out" (500 : Int).toNat layerA).1.layer = layerA.desc.name ∧
    (convertLayer "out" (500 : Int).toNat layerA).1.state = .completed ∧
    (convertLayer "out" (500 : Int).toNat layerC).1.layer = layerC.desc.name ∧
    (convertLayer "out" (500 : Int).toNat layerC).1.state = .completed ∧
    layerFailureReason layerB.desc.name =
      "layer " ++ layerB.desc.name ++ ": unrecoverable malformed data" ∧
    artifactPaths (convert ⟨"abc.gdb", true, [layerA, layerB, layerC]⟩ "out" 500).2 =
      [artifactPath "out" layerA.desc.name, artifactPath "out" layerC.desc.name] :=
  convert_partial_failure_isolation layerA layerB layerC "abc.gdb" "out" 500
    (by decide) rfl rfl rfl

theorem chunksOf_nil (n : Nat) : chunksOf n [] = [] := by
  simp [chunksOf]

theorem chunksOf_map_length (n k : Nat) (hn : 0 < n) :
    ∀ l : List Feature, l.length = k * n →
      (chunksOf n l).map List.length = List.replicate k n := by
  induction k with
  | zero =>
    intro l hl
    have hnil : l = [] := List.eq_nil_of_length_eq_zero (by simpa using hl)
    subst hnil
    rw [chunksOf_nil]
    rfl
  | succ k ih =>
    intro l hl
    cases l with
    | nil =>
      simp [Nat.succ_mul] at hl
      omega
    | cons x xs =>
      simp only [chunksOf]
      rw [dif_neg (by omega)]
      have hlen : (x :: xs).length = (k + 1) * n := hl
      have hle : n ≤ (x :: xs).length := by
        rw [hlen, Nat.succ_mul]
        omega
      have htake : ((x :: xs).take n).length = n := by
        rw [List.length_take]
        omega
      have hdrop : ((x :: xs).drop n).length = k * n := by
        rw [List.length_drop, hlen, Nat.succ_mul]
        omega
      rw [List.map_cons, htake, ih _ hdrop, List.replicate_succ]

/-- C6: converting a source of exactly two convertible layers with 1,000
and 0 features at `chunk_size = 500` writes, for the first layer, exactly
two chunks of 500 records each, zero chunks for the second layer,
exactly two output artifacts (the empty layer still gets a schema-only
artifact), and yields `total_records = 1000`, `success = true` and an
empty `layers_failed`. -/
theorem convert_two_layer_chunking
    (L1 L2 : SourceLayer) (p output_dir : String)
    (h1 : L1.features.length = 1000) (h2 : L2.features = [])
    (hc1 : L1.corrupt = false) (hc2 : L2.corrupt = false) :
    convert ⟨p, true, [L1, L2]⟩ output_dir 500 =
      (.ok { success := true
           , layers_converted :=
               [{ layer := L1.desc.name, state := .completed, record_count := 1000
                , output_file := some (artifactPath output_dir L1.desc.name)
                , failureReason := Option.none },
                { layer := L2.desc.name, state := .completed, record_count := 0
                , output_file := some (artifactPath output_dir L2.desc.name)
                , failureReason := Option.none }]
           , layers_failed := []
           , total_records := 1000
           , output_dir := output_dir },
       [.layerOpened L1.desc.name,
        .chunkWritten L1.desc.name 500, .chunkWritten L1.desc.name 500,
        .artifactWritten (artifactPath output_dir L1.desc.name)
          (derive_schema L1.desc) L1.features,
        .layerOpened L2.desc.name,
        .artifactWritten (artifactPath output_dir L2.desc.name)
          (derive_schema L2.desc) []]) := by
  have hml : (chunksOf 500 L1.features).map List.length = List.replicate 2 500 :=
    chunksOf_map_length 500 2 (by decide) L1.features (by omega)
  have hevents : (chunksOf 500 L1.features).map
      (fun c => Effect.chunkWritten L1.desc.name c.length) =
      [Effect.chunkWritten L1.desc.name 500, Effect.chunkWritten L1.desc.name 500] := by
    have hcast := congrArg (List.map (Effect.chunkWritten L1.desc.name)) hml
    rw [List.map_map] at hcast
    simpa [Function.comp] using hcast
  simp [convert, aggregate, convertLayer, hc1, hc2, h1, h2, hevents,
    chunksOf_nil, isCompletedResult, isFailedResult]

/-- C6 witness: the theorem applied to two concrete layers of 1,000 and 0
features. -/
theorem convert_two_layer_chunking_wit :
    convert ⟨"two.gdb", true, [bigLayer, schemaOnlyLayer]⟩ "out" 500 =
      (.ok { success := true
           , layers_converted :=
               [{ layer := bigLayer.desc.name, state := .completed, record_count := 1000
                , output_file := some (artifactPath "out" bigLayer.desc.name)
                , failureReason := Option.none },
                { layer := schemaOnlyLayer.desc.name, state := .completed, record_count := 0
                , output_file := some (artifactPath "out" schemaOnlyLayer.desc.name)
                , failureReason := Option.none }]
           , layers_failed := []
           , total_records := 1000
           , output_dir := "out" },
       [.layerOpened bigLayer.desc.name,
        .chunkWritten bigLayer.desc.name 500, .chunkWritten bigLayer.desc.name 500,
        .artifactWritten (artifactPath "out" bigLayer.desc.name)
          (derive_schema bigLayer.desc) bigLayer.features,
        .layerOpened schemaOnlyLayer.desc.name,
        .artifactWritten (artifactPath "out" schemaOnlyLayer.desc.name)
          (derive_schema schemaOnlyLayer.desc) []]) :=
  convert_two_layer_chunking bigLayer schemaOnlyLayer "two.gdb" "out"
    (by simp only [bigLayer, List.length_replicate]) rfl rfl rfl

theorem convertLayer_lrView (d1 d2 : String) (n : Nat) (l : SourceLayer) :
    lrView (convertLayer d1 n l).1 = lrView (convertLayer d2 n l).1 := by
  cases h : l.corrupt <;> simp [convertLayer, h, lrView]

theorem filter_map_of_map_eq {α β : Type _} (v : α → β) (p : α → Bool) (q : β → Bool)
    (hpq : ∀ a, p a = q (v a)) :
    ∀ l1 l2 : List α, l1.map v = l2.map v →
      (l1.filter p).map v = (l2.filter p).map v := by
  intro l1
  induction l1 with
  | nil =>
    intro l2 h
    have hnil : l2 = [] := by simpa using h.symm
    subst hnil
    rfl
  | cons a l ih =>
    intro l2 h
    cases l2 with
    | nil => simp at h
    | cons b l2' =>
      simp only [List.map_cons, List.cons.injEq] at h
      obtain ⟨hv, ht⟩ := h
      have hp : p a = p b := by rw [hpq a, hpq b, hv]
      rw [List.filter_cons, List.filter_cons, hp]
      cases hb : p b with
      | false => simp [ih l2' ht]
      | true => simp [hv, ih l2' ht]

theorem artifactViews_cons_opened (s : String) (es : List Effect) :
    artifactViews (.layerOpened s :: es) = artifactViews es := by
  simp [artifactViews, List.filterMap_cons]

theorem artifactViews_append (xs ys : List Effect) :
    artifactViews (xs ++ ys) = artifactViews xs ++ artifactViews ys := by
  simp [artifactViews, List.filterMap_append]

theorem artifactViews_chunkEvents (name : String) (cs : List (List Feature)) :
    artifactViews (cs.map (fun c => Effect.chunkWritten name c.length)) = [] := by
  induction cs with
  | nil => rfl
  | cons c cs ih =>
    simp only [List.map_cons, artifactViews, List.filterMap_cons] at ih ⊢
    exact ih

theorem artifactViews_convertLayer (d : String) (n : Nat) (l : SourceLayer) :
    artifactViews (convertLayer d n l).2 =
      if l.corrupt then [] else [(derive_schema l.desc, l.features)] := by
  cases h : l.corrupt with
  | false =>
    rw [convertLayer_snd_ok d n l h, artifactViews_cons_opened, artifactViews_append,
      artifactViews_chunkEvents]
    simp [artifactViews, List.filterMap_cons]
  | true =>
    rw [convertLayer_snd_corrupt d n l h]
    simp [artifactViews, List.filterMap_cons]

theorem artifactViews_aggregate (layers : List SourceLayer) (d : String) (n : Nat) :
    artifactViews (aggregate layers d n).2 =
      layers.flatMap (fun l => if l.corrupt then [] else [(derive_schema l.desc, l.features)]) := by
  simp only [aggregate]
  induction layers with
  | nil => rfl
  | cons l ls ih =>
    simp only [List.map_cons, List.flatMap_cons, artifactViews_append,
      artifactViews_convertLayer] at ih ⊢
    rw [ih]

/-- C7: converting the same source with the same chunk size into two
output directories yields identical location-independent results (success
flag, per-layer name/state/record-count/failure-reason views, failed-layer
list, total records) and identical artifact schemas and contents in the
same order — schemas are byte-identical and each layer's geometry and
attribute values round-trip unchanged across both runs, with only the
output locations differing. -/
theorem convert_idempotent_across_output_dirs
    (src : GeodatabaseSource) (chunk_size : Int) (d1 d2 : String) :
    resultView (convert src d1 chunk_size).1 = resultView (convert src d2 chunk_size).1 ∧
    artifactViews (convert src d1 chunk_size).2 = artifactViews (convert src d2 chunk_size).2 := by
  by_cases h1 : chunk_size ≤ 0
  · simp [convert, h1]
  · by_cases h2 : src.pathExists = false
    · simp [convert, h1, h2]
    · have hmap : ((src.layers.map (convertLayer d1 chunk_size.toNat)).map Prod.fst).map lrView
          = ((src.layers.map (convertLayer d2 chunk_size.toNat)).map Prod.fst).map lrView := by
        simp only [List.map_map]
        exact List.map_congr_left fun l _ => by
          simpa [Function.comp] using convertLayer_lrView d1 d2 chunk_size.toNat l
      have hcomp := filter_map_of_map_eq lrView isCompletedResult viewIsCompleted
        (fun r => rfl) _ _ hmap
      have hfail := filter_map_of_map_eq lrView isFailedResult viewIsFailed
        (fun r => rfl) _ _ hmap
      have hlen : (((src.layers.map (convertLayer d1 chunk_size.toNat)).map Prod.fst).filter
            isCompletedResult).length
          = (((src.layers.map (convertLayer d2 chunk_size.toNat)).map Prod.fst).filter
            isCompletedResult).length := by
        have hc := congrArg List.length hcomp
        simpa using hc
      have hsum : ((((src.layers.map (convertLayer d1 chunk_size.toNat)).map Prod.fst).filter
            isCompletedResult).map (fun r => r.record_count)).sum
          = ((((src.layers.map (convertLayer d2 chunk_size.toNat)).map Prod.fst).filter
            isCompletedResult).map (fun r => r.record_count)).sum := by
        have hc := congrArg (fun l : List LayerView => (l.map (fun x => x.2.2.1)).sum) hcomp
        simpa [List.map_map, Function.comp, lrView] using hc
      have hfailmap : (((src.layers.map (convertLayer d1 chunk_size.toNat)).map Prod.fst).filter
            isFailedResult).map (fun r => (r.layer, r.failureReason.getD ""))
          = (((src.layers.map (convertLayer d2 chunk_size.toNat)).map Prod.fst).filter
            isFailedResult).map (fun r => (r.layer, r.failureReason.getD "")) := by
        have hc := congrArg (List.map (fun x : LayerView => (x.1, x.2.2.2.getD ""))) hfail
        simpa [List.map_map, Function.comp, lrView] using hc
      have h2' : src.pathExists = true := by simpa using h2
      have hconv1 : convert src d1 chunk_size =
          (.ok (aggregate src.layers d1 chunk_size.toNat).1,
           (aggregate src.layers d1 chunk_size.toNat).2) := by
        simp [convert, h1, h2']
      have hconv2 : convert src d2 chunk_size =
          (.ok (aggregate src.layers d2 chunk_size.toNat).1,
           (aggregate src.layers d2 chunk_size.toNat).2) := by
        simp [convert, h1, h2']
      constructor
      · rw [hconv1, hconv2]
        simp only [resultView, aggregate]
        rw [hcomp, hlen, hsum, hfailmap]
      · rw [hconv1, hconv2]
        rw [artifactViews_aggregate, artifactViews_aggregate]

/-- C8 counterexample: a concrete successful conversion whose result
mapping has no field named `output_size`. The size field read by both
drivers (`convert_sf_premium_nc.py` line 105, `simple_example.py`
line 36) is `output_size_mb`. -/
theorem convert_result_mapping_output_size_cex :
    (convert demoSource "out" 500).1 = .ok demoResult ∧
    demoResult.success = true ∧
    "output_size" ∉ (resultMapping demoResult).map Prod.fst := by
  refine ⟨rfl, rfl, by decide⟩

/-- C8 (amended): for every successful conversion, the result mapping
returned by the convert API carries the total output size in a field
named `output_size_mb` — together with success, layers_converted,
layers_failed, total_records, total_time, processing_rate and
output_dir, these are exactly its keys. -/
theorem convert_result_mapping_keys (src : GeodatabaseSource)
    (output_dir : String) (chunk_size : Int)
    (r : ConversionResult) (effs : List Effect)
    (_h : convert src output_dir chunk_size = (.ok r, effs)) (_hs : r.success = true) :
    (resultMapping r).map Prod.fst =
      ["success", "layers_converted", "layers_failed", "total_records",
       "total_time", "processing_rate", "output_size_mb", "output_dir"] := by
  rfl

/-- C8 witness: the amended theorem applied to a concrete successful
conversion. -/
theorem convert_result_mapping_keys_wit :
    (resultMapping demoResult).map Prod.fst =
      ["success", "layers_converted", "layers_failed", "total_records",
       "total_time", "processing_rate", "output_size_mb", "output_dir"] :=
  convert_result_mapping_keys demoSource "out" 500 demoResult
    ((convert demoSource "out" 500).2) rfl rfl

theorem natDigitChar_inj :
    ∀ d, d < 10 → ∀ e, e < 10 → natDigitChar d = natDigitChar e → d = e := by
  decide

theorem natDigitChar_toLower :
    ∀ d, d < 10 → (natDigitChar d).toLower = natDigitChar d := by
  decide

theorem map_natDigitChar_inj :
    ∀ (xs ys : List Nat), (∀ x ∈ xs, x < 10) → (∀ y ∈ ys, y < 10) →
      xs.map natDigitChar = ys.map natDigitChar → xs = ys := by
  intro xs
  induction xs with
  | nil =>
    intro ys _ _ h
    cases ys with
    | nil => rfl
    | cons y ys' => simp at h
  | cons x xs ih =>
    intro ys hx hy h
    cases ys with
    | nil => simp at h
    | cons y ys' =>
      simp only [List.map_cons, List.cons.injEq] at h
      obtain ⟨h1, h2⟩ := h
      have hx0 : x < 10 := hx x (by simp)
      have hy0 : y < 10 := hy y (by simp)
      have hxy : x = y := natDigitChar_inj x hx0 y hy0 h1
      subst hxy
      rw [ih ys' (fun a ha => hx a (by simp [ha])) (fun a ha => hy a (by simp [ha])) h2]

theorem natDecimal_inj (m n : Nat)
    (h : (natDecimal m).data = (natDecimal n).data) : m = n := by
  unfold natDecimal at h
  have hm : ∀ x ∈ (Nat.digits 10 m).reverse, x < 10 := fun x hx =>
    Nat.digits_lt_base (by norm_num) (List.mem_reverse.mp hx)
  have hn : ∀ x ∈ (Nat.digits 10 n).reverse, x < 10 := fun x hx =>
    Nat.digits_lt_base (by norm_num) (List.mem_reverse.mp hx)
  have hrev := map_natDigitChar_inj _ _ hm hn h
  have hdig : Nat.digits 10 m = Nat.digits 10 n := by
    have := congrArg List.reverse hrev
    simpa using this
  calc m = Nat.ofDigits 10 (Nat.digits 10 m) := (Nat.ofDigits_digits 10 m).symm
    _ = Nat.ofDigits 10 (Nat.digits 10 n) := by rw [hdig]
    _ = n := Nat.ofDigits_digits 10 n

theorem string_data_append (a b : String) : (a ++ b).data = a.data ++ b.data := by
  cases a
  cases b
  rfl

theorem foldName_append (a b : String) :
    foldName (a ++ b) = foldName a ++ foldName b := by
  cases a with
  | mk xs =>
    cases b with
    | mk ys =>
      show String.mk ((xs ++ ys).map Char.toLower)
          = String.mk (xs.map Char.toLower ++ ys.map Char.toLower)
      rw [List.map_append]

theorem natDecimal_foldName (n : Nat) : foldName (natDecimal n) = natDecimal n := by
  refine congrArg String.mk ?_
  show (((Nat.digits 10 n).reverse).map natDigitChar).map Char.toLower
      = ((Nat.digits 10 n).reverse).map natDigitChar
  rw [List.map_map]
  exact List.map_congr_left fun d hd => by
    have hlt : d < 10 := Nat.digits_lt_base (by norm_num) (List.mem_reverse.mp hd)
    simpa [Function.comp] using natDigitChar_toLower d hlt

theorem foldName_underscore : foldName "_" = "_" := by decide

theorem foldName_candidate (base : String) (k : Nat) :
    foldName (candidateName base k) = foldName base ++ "_" ++ natDecimal k := by
  unfold candidateName
  rw [foldName_append, foldName_append, foldName_underscore, natDecimal_foldName]

theorem candidate_foldName_inj (base : String) (i j : Nat)
    (h : foldName (candidateName base i) = foldName (candidateName base j)) : i = j := by
  rw [foldName_candidate, foldName_candidate] at h
  have hd := congrArg String.data h
  rw [string_data_append, string_data_append] at hd
  exact natDecimal_inj i j (List.append_cancel_left hd)

theorem freshAux_free (base : String) (seen : List String) :
    ∀ fuel k, (∃ j, k ≤ j ∧ j < k + fuel ∧ foldName (candidateName base j) ∉ seen) →
      foldName (freshAux base seen k fuel) ∉ seen := by
  intro fuel
  induction fuel with
  | zero =>
    intro k hex
    obtain ⟨j, hk, hj, _⟩ := hex
    omega
  | succ fuel ih =>
    intro k hex
    obtain ⟨j, hkj, hjlt, hfree⟩ := hex
    by_cases hmem : foldName (candidateName base k) ∈ seen
    · simp only [freshAux]
      rw [if_pos hmem]
      refine ih (k + 1) ⟨j, ?_, ?_, hfree⟩
      · have hne : j ≠ k := fun he => hfree (he ▸ hmem)
        omega
      · omega
    · simp only [freshAux]
      rw [if_neg hmem]
      exact hmem

theorem exists_free_candidate (base : String) (seen : List String) (k : Nat) :
    ∃ j, k ≤ j ∧ j < k + (seen.length + 1) ∧ foldName (candidateName base j) ∉ seen := by
  by_contra hall
  push_neg at hall
  have hsub : (List.range' k (seen.length + 1)).map
      (fun j => foldName (candidateName base j)) ⊆ seen := by
    intro x hx
    simp only [List.mem_map, List.mem_range'_1] at hx
    obtain ⟨j, ⟨hkj, hjlt⟩, rfl⟩ := hx
    exact hall j hkj hjlt
  have hnodup : ((List.range' k (seen.length + 1)).map
      (fun j => foldName (candidateName base j))).Nodup :=
    List.Nodup.map (fun a b hab => candidate_foldName_inj base a b hab)
      (List.nodup_range' k (seen.length + 1))
  have hle := (List.subperm_of_subset hnodup hsub).length_le
  rw [List.length_map, List.length_range'] at hle
  omega

theorem freshName_free (base : String) (seen : List String) :
    foldName (freshName base seen) ∉ seen := by
  unfold freshName
  by_cases h : foldName base ∈ seen
  · rw [if_pos h]
    exact freshAux_free base seen (seen.length + 1) 1 (exists_free_candidate base seen 1)
  · rw [if_neg h]
    exact h

theorem resolveColumns_length :
    ∀ (fields : List FieldDef) (seen : List String),
      (resolveColumns fields seen).length = fields.length := by
  intro fields
  induction fields with
  | nil => intro seen; rfl
  | cons f fs ih => intro seen; simp [resolveColumns, ih]

theorem resolveColumns_avoid_and_nodup :
    ∀ (fields : List FieldDef) (seen : List String),
      (∀ c ∈ resolveColumns fields seen, foldName c.name ∉ seen) ∧
      ((resolveColumns fields seen).map (fun c => foldName c.name)).Nodup := by
  intro fields
  induction fields with
  | nil =>
    intro seen
    exact ⟨by simp [resolveColumns], by simp [resolveColumns]⟩
  | cons f fs ih =>
    intro seen
    obtain ⟨ihAvoid, ihNodup⟩ := ih (foldName (freshName f.name seen) :: seen)
    constructor
    · intro c hc
      simp only [resolveColumns, List.mem_cons] at hc
      rcases hc with rfl | hc
      · exact freshName_free f.name seen
      · exact fun hin => ihAvoid c hc (List.mem_cons_of_mem _ hin)
    · simp only [resolveColumns, List.map_cons]
      rw [List.nodup_cons]
      constructor
      · intro hmem
        simp only [List.mem_map] at hmem
        obtain ⟨c, hc, hcn⟩ := hmem
        exact ihAvoid c hc (by rw [hcn]; exact List.mem_cons_self _ _)
      · exact ihNodup

/-- C9: for every layer descriptor whose field list contains
case-insensitive duplicate field names, `derive_schema` resolves every
collision deterministically (suffixing the first free numeric
disambiguator in encounter order), so the resulting target schema has no
case-insensitive duplicate column names and no field is dropped — the
column list keeps one column per field. -/
theorem derive_schema_collision_resolution (d : LayerDescriptor)
    (_hdup : ¬ (d.fields.map (fun f => foldName f.name)).Nodup) :
    ((derive_schema d).columns.map (fun c => foldName c.name)).Nodup ∧
    (derive_schema d).columns.length = d.fields.length :=
  ⟨(resolveColumns_avoid_and_nodup d.fields []).2, resolveColumns_length d.fields []⟩

/-- C9 witness: the theorem applied to a concrete descriptor with the
case-insensitive duplicate field names `Name` and `name`. -/
theorem derive_schema_collision_resolution_wit :
    ((derive_schema dupFieldsDesc).columns.map (fun c => foldName c.name)).Nodup ∧
    (derive_schema dupFieldsDesc).columns.length = dupFieldsDesc.fields.length :=
  derive_schema_collision_resolution dupFieldsDesc (by decide)

/-- C10: running `examples/simple_example.py` as a script raises
`TypeError` (its `__main__` block calls `get_info_example()` with no
arguments while `gdb_file` is a required positional parameter) before any
geodatabase is inspected or converted. -/
theorem simple_example_main_raises_type_error :
    simpleExampleMain.1 = .error (.typeErrorMissingArg "get_info_example") ∧
    PyEvent.inspectedGdb ∉ simpleExampleMain.2 ∧
    PyEvent.convertedGdb ∉ simpleExampleMain.2 := by
  refine ⟨rfl, ?_, ?_⟩ <;> simp [simpleExampleMain, pyCall, get_info_example_required]

end EsriConverter
